import Mathlib

/-!
Verification development for the gullyesports tournament-registration backend.

The definitions below are a shallow embedding of the JavaScript source:
  - `backend/routes/registrationRoutes` (POST /api/v1/register handler,
    FEE_TABLE, PLAYER_COUNT, express-validator chains),
  - `backend/models/Registration` (mongoose schema, pre-save hook, unique
    transactionId index),
  - `backend/models/Contact` and the contact route,
  - `backend/models/Admin`, `backend/middleware/authMiddleware` (protect),
  - `backend/routes/adminRoutes` (login, me, stats, contact/registration
    admin operations).

Strings are Lean `String`s; JavaScript `undefined`/`null` optional values
are `Option`; the MongoDB collections are lists of documents; time is a
`Nat` count of seconds (JWT `iat`/`exp` granularity).
-/

/-- One roster entry, as in the `playerSchema` sub-schema: inGameName,
inGameId, phone are required strings; email is optional (`default: null`). -/
structure Player where
  inGameName : String
  inGameId : String
  phone : String
  email : Option String
deriving Repr, DecidableEq

/-- The JSON body of a POST /api/v1/register request, after JSON parsing.
`teamName` is `none` when the field is absent or `null`.  `entryFee` models
a fee field a client may include in the body; the route handler never reads
it (the fee is server-authoritative). -/
structure RegBody where
  game : String
  mode : String
  teamName : Option String
  players : List Player
  transactionId : String
  entryFee : Option Nat
deriving Repr, DecidableEq

/-- A persisted registration document (mongoose `Registration` model).
`id` models the MongoDB `_id`.  `entryFee` is `Option` because in the
source it is whatever number the route computed (`undefined` if the lookup
missed, which the schema `required` validator would reject). -/
structure Registration where
  id : Nat
  game : String
  mode : String
  teamName : Option String
  players : List Player
  transactionId : String
  entryFee : Option Nat
  status : String
deriving Repr, DecidableEq

/-- Server-authoritative fee table from registrationRoutes:
`const FEE_TABLE = { solo: 5, duo: 10, squad: 20 }`.  Lookup of any other
key is JavaScript `undefined`, modelled as `none`. -/
def FEE_TABLE (mode : String) : Option Nat :=
  if mode == "solo" then some 5
  else if mode == "duo" then some 10
  else if mode == "squad" then some 20
  else none

/-- `const PLAYER_COUNT = { solo: 1, duo: 2, squad: 4 }`. -/
def PLAYER_COUNT (mode : String) : Option Nat :=
  if mode == "solo" then some 1
  else if mode == "duo" then some 2
  else if mode == "squad" then some 4
  else none

/-- JavaScript `n < e` where `e` may be `undefined`: comparison with
`undefined` is `false`. -/
def jsLt (n : Nat) : Option Nat → Bool
  | some e => n < e
  | none => false

/-- JavaScript truthiness of an optional string: `undefined`, `null` and
the empty string are falsy, every other string is truthy. -/
def truthyStr : Option String → Bool
  | some s => s != ""
  | none => false

/-- JavaScript `t || null`: keep a truthy string, collapse falsy values to
`null`. -/
def orNull (t : Option String) : Option String :=
  if truthyStr t then t else none

/-- JavaScript `String.prototype.trim`, executable over the character
list (structural recursion, so concrete instances evaluate in the
kernel). -/
def jsTrim (s : String) : String :=
  String.mk (((s.data.dropWhile Char.isWhitespace).reverse.dropWhile Char.isWhitespace).reverse)

/-- JavaScript `String.prototype.toLowerCase` (ASCII case folding). -/
def jsToLower (s : String) : String :=
  String.mk (s.data.map Char.toLower)

/-- Allowed values of the `game` field. -/
def allowedGames : List String := ["pubg", "freefire", "cod"]

/-- Allowed values of the `mode` field. -/
def allowedModes : List String := ["solo", "duo", "squad"]

/-- express-validator chain `body('game').trim().notEmpty().isIn([...])`.
Chains do not bail by default, so an empty value also fails the `isIn`
check and both messages are recorded. -/
def gameErrors (game : String) : List String :=
  let v := jsTrim game
  (if v == "" then ["Game is required"] else []) ++
  (if allowedGames.contains v then [] else ["Invalid game selection"])

/-- express-validator chain `body('mode').trim().notEmpty().isIn([...])`. -/
def modeErrors (mode : String) : List String :=
  let v := jsTrim mode
  (if v == "" then ["Mode is required"] else []) ++
  (if allowedModes.contains v then [] else ["Invalid mode selection"])

/-- express-validator chain
`body('teamName').optional(nullable, checkFalsy).trim().isLength(max 50)`:
the chain is skipped entirely for `null`/missing/empty values. -/
def teamNameErrors (t : Option String) : List String :=
  match t with
  | none => []
  | some s =>
    if s == "" then []
    else if (jsTrim s).length ≤ 50 then []
    else ["Team name cannot exceed 50 characters"]

/-- express-validator chain `body('players').isArray(min 1, max 5)`. -/
def playersArrayErrors (ps : List Player) : List String :=
  if 1 ≤ ps.length ∧ ps.length ≤ 5 then []
  else ["Players array is required (1-5 players)"]

/-- Wildcard chain `body('players.*.inGameName').trim().notEmpty()`:
one error per offending element, in element order. -/
def playerNameErrors (ps : List Player) : List String :=
  ps.filterMap fun p =>
    if jsTrim p.inGameName == "" then some "In-game name is required for all players" else none

/-- Wildcard chain `body('players.*.inGameId').trim().notEmpty()`. -/
def playerIdErrors (ps : List Player) : List String :=
  ps.filterMap fun p =>
    if jsTrim p.inGameId == "" then some "In-game ID is required for all players" else none

/-- Wildcard chain `body('players.*.phone').trim().notEmpty()`. -/
def playerPhoneErrors (ps : List Player) : List String :=
  ps.filterMap fun p =>
    if jsTrim p.phone == "" then some "Phone number is required for all players" else none

/-- express-validator chain
`body('transactionId').trim().notEmpty().isLength(min 5)`. -/
def transactionIdErrors (tid : String) : List String :=
  let v := jsTrim tid
  (if v == "" then ["Transaction ID is required"] else []) ++
  (if 5 ≤ v.length then [] else ["Transaction ID must be at least 5 characters"])

/-- All validation messages of the registration request, in chain
declaration order, exactly as `validationResult(req).array().map(e => e.msg)`
collects them (all chains run; validation never stops at the first failing
field). -/
def regErrors (b : RegBody) : List String :=
  gameErrors b.game ++ modeErrors b.mode ++ teamNameErrors b.teamName ++
  playersArrayErrors b.players ++ playerNameErrors b.players ++
  playerIdErrors b.players ++ playerPhoneErrors b.players ++
  transactionIdErrors b.transactionId

/-- The `.trim()` sanitizers of the wildcard player chains mutate
`req.body` in place; the handler sees the trimmed values. -/
def sanitizePlayer (p : Player) : Player :=
  { p with
    inGameName := jsTrim p.inGameName
    inGameId := jsTrim p.inGameId
    phone := jsTrim p.phone }

/-- The express-validator sanitizers applied to the registration body
before the handler runs.  Sanitizers of an `optional(checkFalsy)` chain
are skipped for falsy values, so a `null` or empty `teamName` is left
alone. -/
def sanitizeReg (b : RegBody) : RegBody :=
  { b with
    game := jsTrim b.game
    mode := jsTrim b.mode
    teamName :=
      match b.teamName with
      | none => none
      | some s => if s == "" then some s else some (jsTrim s)
    players := b.players.map sanitizePlayer
    transactionId := jsTrim b.transactionId }

/-- A persisted contact message (mongoose `Contact` model). -/
structure Contact where
  id : Nat
  name : String
  email : String
  phone : Option String
  subject : String
  message : String
  status : String
deriving Repr, DecidableEq

/-- An administrator account (mongoose `Admin` model).  `password` holds
the bcrypt hash; `lastLogin` is `null` until the first login. -/
structure AdminAcct where
  id : Nat
  email : String
  password : String
  name : String
  role : String
  lastLogin : Option Nat
deriving Repr, DecidableEq

/-- A signed JWT as produced by `jwt.sign({ id }, JWT_SECRET, ...)`:
payload `{ id, iat, exp }` plus the secret it was signed with (a token
whose `signedWith` differs from the verifier secret models a forged or
tampered token). -/
structure Token where
  id : Nat
  iat : Nat
  exp : Nat
  signedWith : String
deriving Repr, DecidableEq

/-- Seven days in seconds: the `expiresIn: '7d'` option of `jwt.sign`. -/
def sevenDays : Nat := 7 * 24 * 60 * 60

/-- `generateToken` / `jwt.sign` with `expiresIn: '7d'`: the expiry is
fixed at seven days from issuance. -/
def jwtSign (id : Nat) (secret : String) (now : Nat) : Token :=
  { id := id, iat := now, exp := now + sevenDays, signedWith := secret }

/-- Failure modes of `jwt.verify`: `JsonWebTokenError` (bad signature) and
`TokenExpiredError`. -/
inductive JwtError where
  | invalid
  | expired
deriving Repr, DecidableEq

/-- `jwt.verify(token, secret)` at clock time `now`: signature mismatch
throws `JsonWebTokenError`; a clock at or past `exp` throws
`TokenExpiredError`; otherwise the payload id is returned. -/
def jwtVerify (t : Token) (secret : String) (now : Nat) : Except JwtError Nat :=
  if t.signedWith != secret then .error .invalid
  else if t.exp ≤ now then .error .expired
  else .ok t.id

/-- The aggregate numbers assembled by GET /api/v1/admin/stats. -/
structure StatsData where
  totalContacts : Nat
  newContacts : Nat
  totalRegistrations : Nat
  pendingRegistrations : Nat
  approvedRegistrations : Nat
  pubgRegistrations : Nat
  freefireRegistrations : Nat
  codRegistrations : Nat
  revenue : Nat
deriving Repr, DecidableEq

/-- Pagination block of the admin list endpoints. -/
structure Pagination where
  page : Nat
  limit : Nat
  total : Nat
  pages : Nat
deriving Repr, DecidableEq

/-- The `data` object of a successful registration response. -/
structure RegSuccess where
  registrationId : Nat
  game : String
  mode : String
  teamName : Option String
  playerCount : Nat
  entryFee : Option Nat
  status : String
deriving Repr, DecidableEq

/-- The `data` payload of a JSON response, one constructor per endpoint
shape. -/
inductive RespData where
  | noData
  | regCreated (d : RegSuccess)
  | loginData (token : Token) (adminId : Nat) (name : String) (email : String) (role : String)
  | meData (adminId : Nat) (name : String) (email : String) (role : String) (lastLogin : Option Nat)
  | statsData (s : StatsData)
  | contactPage (cs : List Contact) (pg : Pagination)
  | regPage (rs : List Registration) (pg : Pagination)
  | contactDoc (c : Contact)
  | regDoc (r : Registration)
deriving Repr, DecidableEq

/-- A JSON HTTP response: status code plus the
`{success, message, errors?, data?}` body shape used everywhere. -/
structure Resp where
  status : Nat
  success : Bool
  message : String
  errors : List String := []
  data : RespData := .noData
deriving Repr, DecidableEq

/-- Mongoose schema validation of a player sub-document: required
non-empty strings with the schema maxlengths (50 for inGameName, 30 for
inGameId). -/
def validPlayerDoc (p : Player) : Bool :=
  p.inGameName != "" && p.inGameName.length ≤ 50 &&
  p.inGameId != "" && p.inGameId.length ≤ 30 &&
  p.phone != ""

/-- Registration status enum. -/
def regStatuses : List String := ["pending", "approved", "rejected"]

/-- Mongoose schema validation of a `Registration` document (runs inside
`save()` before the user pre-save hook): enum membership for game, mode
and status, teamName maxlength 50, the 1-5 players array validator,
player sub-document validation, required transactionId, and
`entryFee: { required, min: 5 }`. -/
def validRegDoc (r : Registration) : Bool :=
  allowedGames.contains r.game &&
  allowedModes.contains r.mode &&
  (match r.teamName with
   | some t => t.length ≤ 50
   | none => true) &&
  (1 ≤ r.players.length && r.players.length ≤ 5) &&
  r.players.all validPlayerDoc &&
  r.transactionId != "" &&
  (match r.entryFee with
   | some f => 5 ≤ f
   | none => false) &&
  regStatuses.contains r.status

/-- The `registrationSchema.pre('save')` hook.  `some msg` models a
thrown `Error(msg)`.  As in the JavaScript, an unknown mode makes
`expected` undefined and `length < undefined` is false, so only the
team-name branch could then apply. -/
def preSaveHook (r : Registration) : Option String :=
  if jsLt r.players.length (PLAYER_COUNT r.mode) then
    some (r.mode ++ " mode requires at least " ++
      toString ((PLAYER_COUNT r.mode).getD 0) ++ " player(s)")
  else if (r.mode == "duo" || r.mode == "squad") && !(truthyStr r.teamName) then
    some "Team name is required for duo/squad mode"
  else none

/-- The ways `registration.save()` can reject: a schema validation error,
an error thrown by the pre-save hook, or the MongoDB duplicate-key error
(`error.code === 11000`) from the unique index on transactionId. -/
inductive SaveErr where
  | docInvalid (msg : String)
  | hookThrow (msg : String)
  | dupKey
deriving Repr, DecidableEq

/-- `registration.save()` against the store state at write time: mongoose
validates the document, then runs the user pre-save hook, then the write
itself is rejected by the unique transactionId index if the store already
holds that transactionId; otherwise the document is appended. -/
def saveReg (r : Registration) (store : List Registration) : Except SaveErr (List Registration) :=
  if !(validRegDoc r) then .error (.docInvalid "Registration validation failed")
  else
    match preSaveHook r with
    | some m => .error (.hookThrow m)
    | none =>
      if store.any (fun x => x.transactionId == r.transactionId) then .error .dupKey
      else .ok (store ++ [r])

/-- `new Registration({ game, mode, teamName: teamName || null, players,
transactionId, entryFee, status: 'pending' })` built from the sanitized
body; `n` is the fresh `_id`.  The schema trim setters are no-ops here
because the express-validator sanitizers already trimmed every field. -/
def buildDoc (b : RegBody) (n : Nat) : Registration :=
  { id := n
    game := b.game
    mode := b.mode
    teamName := orNull b.teamName
    players := b.players
    transactionId := b.transactionId
    entryFee := FEE_TABLE b.mode
    status := "pending" }

/-- Success message of POST /api/v1/register. -/
def regSuccessMsg : String :=
  "Registration successful! You will receive match details via WhatsApp/call before the tournament."

/-- The POST /api/v1/register handler.  `storeAtCheck` is the collection
state seen by the duplicate-transactionId `findOne`; `storeAtWrite` is the
state seen by `save()` (they coincide for a lone request; a concurrent
insert between the two reads makes them differ).  Returns the HTTP
response and the resulting collection state. -/
def registerHandler (raw : RegBody) (storeAtCheck storeAtWrite : List Registration) :
    Resp × List Registration :=
  let errors := regErrors raw
  let b := sanitizeReg raw
  if errors.isEmpty then
    match storeAtCheck.find? (fun r => r.transactionId == b.transactionId) with
    | some _ =>
      ({ status := 409, success := false,
         message := "This transaction ID has already been used. Each registration requires a unique payment." },
       storeAtWrite)
    | none =>
      if jsLt b.players.length (PLAYER_COUNT b.mode) then
        ({ status := 400, success := false,
           message := b.mode ++ " mode requires at least " ++
             toString ((PLAYER_COUNT b.mode).getD 0) ++ " player(s). You provided " ++
             toString b.players.length ++ "." },
         storeAtWrite)
      else if (b.mode == "duo" || b.mode == "squad") && !(truthyStr b.teamName) then
        ({ status := 400, success := false,
           message := "Team name is required for duo and squad modes." },
         storeAtWrite)
      else
        let doc := buildDoc b storeAtWrite.length
        match saveReg doc storeAtWrite with
        | .ok store2 =>
          ({ status := 201, success := true, message := regSuccessMsg,
             data := .regCreated
               { registrationId := doc.id
                 game := b.game
                 mode := b.mode
                 teamName := orNull b.teamName
                 playerCount := b.players.length
                 entryFee := FEE_TABLE b.mode
                 status := "pending" } },
           store2)
        | .error .dupKey =>
          ({ status := 409, success := false,
             message := "This transaction ID has already been used for another registration." },
           storeAtWrite)
        | .error (.docInvalid m) =>
          ({ status := 500, success := false, message := "Registration failed: " ++ m },
           storeAtWrite)
        | .error (.hookThrow m) =>
          ({ status := 500, success := false, message := "Registration failed: " ++ m },
           storeAtWrite)
  else
    ({ status := 400, success := false,
       message := "Validation failed. Please check your input.",
       errors := errors },
     storeAtWrite)

/-- The JSON body of POST /api/v1/admin/login (a missing field arrives as
the empty string after `trim`, which fails `notEmpty` exactly as
`undefined` does). -/
structure LoginBody where
  email : String
  password : String
deriving Repr, DecidableEq

/-- Modelled from the spec: the email shape check of the login and contact
routes is performed by the external validator library
(`validator.js isEmail`), which is not code under src.  Simplified to the
canonical shape the spec describes: one `@` separating a non-empty local
part from a dotted, non-empty domain.  No claim depends on the exact
extension of this predicate. -/
def isEmailShape (s : String) : Bool :=
  let cs := s.data
  cs.count '@' == 1 &&
  (let l := cs.takeWhile (fun c => c != '@')
   let d := (cs.dropWhile (fun c => c != '@')).drop 1
   l != [] && d.contains '.' && d.head? != some '.' && d.getLast? != some '.')

/-- express-validator chains of the login route:
`body('email').trim().notEmpty().isEmail()` and
`body('password').notEmpty()`. -/
def loginErrors (b : LoginBody) : List String :=
  let e := jsTrim b.email
  (if e == "" then ["Email is required"] else []) ++
  (if isEmailShape e then [] else ["Invalid email"]) ++
  (if b.password == "" then ["Password is required"] else [])

/-- The uniform credential-failure message of the login route. -/
def invalidCredsMsg : String := "Invalid email or password."

/-- The POST /api/v1/admin/login handler.  `verify` models
`bcrypt.compare(candidate, storedHash)`; the admin collection is returned
alongside the response because a successful login persists `lastLogin`. -/
def loginHandler (admins : List AdminAcct) (verify : String → String → Bool)
    (secret : String) (now : Nat) (raw : LoginBody) : Resp × List AdminAcct :=
  let errs := loginErrors raw
  if errs.isEmpty then
    let email := jsTrim raw.email
    match admins.find? (fun a => a.email == email) with
    | none =>
      ({ status := 401, success := false, message := invalidCredsMsg }, admins)
    | some a =>
      if !(verify raw.password a.password) then
        ({ status := 401, success := false, message := invalidCredsMsg }, admins)
      else
        ({ status := 200, success := true, message := "Login successful",
           data := .loginData (jwtSign a.id secret now) a.id a.name a.email a.role },
         admins.map (fun x => if x.id == a.id then { x with lastLogin := some now } else x))
  else
    ({ status := 400, success := false, message := (errs.head?).getD "" }, admins)

/-- The `protect` middleware from authMiddleware.  `auth` is the bearer
token extracted from the Authorization header (`none` when the header is
absent, does not start with `Bearer`, or carries no token part, all of
which hit the same early 401).  On success the resolved admin account is
handed to the route handler. -/
def protect (admins : List AdminAcct) (secret : String) (now : Nat)
    (auth : Option Token) : Except Resp AdminAcct :=
  match auth with
  | none =>
    .error { status := 401, success := false, message := "Not authorized. Please login." }
  | some tok =>
    match jwtVerify tok secret now with
    | .error .invalid =>
      .error { status := 401, success := false, message := "Invalid token. Please login again." }
    | .error .expired =>
      .error { status := 401, success := false, message := "Token expired. Please login again." }
    | .ok id =>
      match admins.find? (fun a => a.id == id) with
      | none =>
        .error { status := 401, success := false, message := "Admin account not found." }
      | some a => .ok a

/-- The persistent store the admin layer reads and mutates: the contact
and registration collections. -/
structure DB where
  contacts : List Contact
  registrations : List Registration
deriving Repr, DecidableEq

/-- Contact status enum. -/
def contactStatuses : List String := ["new", "read", "replied"]

/-- Sum of `entryFee` over approved registrations, as computed by the
stats route: `Registration.find({status:'approved'},'entryFee')` followed
by `reduce((sum, r) => sum + (r.entryFee || 0), 0)`. -/
def totalRevenue (regs : List Registration) : Nat :=
  (regs.filter (fun r => r.status == "approved")).foldl
    (fun sum r => sum + (r.entryFee.getD 0)) 0

/-- The aggregate counts of GET /api/v1/admin/stats. -/
def statsOf (db : DB) : StatsData :=
  { totalContacts := db.contacts.length
    newContacts := (db.contacts.filter (fun c => c.status == "new")).length
    totalRegistrations := db.registrations.length
    pendingRegistrations := (db.registrations.filter (fun r => r.status == "pending")).length
    approvedRegistrations := (db.registrations.filter (fun r => r.status == "approved")).length
    pubgRegistrations := (db.registrations.filter (fun r => r.game == "pubg")).length
    freefireRegistrations := (db.registrations.filter (fun r => r.game == "freefire")).length
    codRegistrations := (db.registrations.filter (fun r => r.game == "cod")).length
    revenue := totalRevenue db.registrations }

/-- `Math.ceil(total / limit)` on naturals. -/
def ceilDiv (total limit : Nat) : Nat := (total + limit - 1) / limit

/-- GET /api/v1/admin/contacts: optional status filter (silently ignored
when not a valid enum value), newest-first ordering, skip/limit
pagination. -/
def listContactsAction (status : Option String) (page limit : Nat) (db : DB) : Resp :=
  let filtered : List Contact :=
    match status with
    | some s =>
      if s != "" && contactStatuses.contains s then db.contacts.filter (fun c => c.status == s)
      else db.contacts
    | none => db.contacts
  let sorted := filtered.reverse
  let items := (sorted.drop ((page - 1) * limit)).take limit
  { status := 200, success := true, message := "",
    data := .contactPage items
      { page := page, limit := limit, total := filtered.length,
        pages := ceilDiv filtered.length limit } }

/-- PATCH /api/v1/admin/contacts/:id — `!status ||
!['new','read','replied'].includes(status)` is a 400; an unknown id is a
404; otherwise `findByIdAndUpdate` sets the status. -/
def updateContactAction (cid : Nat) (status : Option String) (db : DB) : Resp × DB :=
  if !(truthyStr status) || !(contactStatuses.contains (status.getD "")) then
    ({ status := 400, success := false, message := "Status must be: new, read, or replied" }, db)
  else
    match db.contacts.find? (fun c => c.id == cid) with
    | none => ({ status := 404, success := false, message := "Contact not found." }, db)
    | some c =>
      let c2 := { c with status := status.getD "" }
      ({ status := 200, success := true, message := "", data := .contactDoc c2 },
       { db with contacts := db.contacts.map (fun x => if x.id == cid then c2 else x) })

/-- DELETE /api/v1/admin/contacts/:id — `findByIdAndDelete`. -/
def deleteContactAction (cid : Nat) (db : DB) : Resp × DB :=
  match db.contacts.find? (fun c => c.id == cid) with
  | none => ({ status := 404, success := false, message := "Contact not found." }, db)
  | some _ =>
    ({ status := 200, success := true, message := "Contact deleted." },
     { db with contacts := db.contacts.filter (fun x => !(x.id == cid)) })

/-- GET /api/v1/admin/registrations: optional game/mode/status filters
(each silently ignored when invalid), newest-first, skip/limit. -/
def listRegsAction (game mode status : Option String) (page limit : Nat) (db : DB) : Resp :=
  let f1 : List Registration :=
    match game with
    | some g => if g != "" && allowedGames.contains g then db.registrations.filter (fun r => r.game == g) else db.registrations
    | none => db.registrations
  let f2 : List Registration :=
    match mode with
    | some m => if m != "" && allowedModes.contains m then f1.filter (fun r => r.mode == m) else f1
    | none => f1
  let f3 : List Registration :=
    match status with
    | some s => if s != "" && regStatuses.contains s then f2.filter (fun r => r.status == s) else f2
    | none => f2
  let items := ((f3.reverse).drop ((page - 1) * limit)).take limit
  { status := 200, success := true, message := "",
    data := .regPage items
      { page := page, limit := limit, total := f3.length, pages := ceilDiv f3.length limit } }

/-- PATCH /api/v1/admin/registrations/:id. -/
def updateRegAction (rid : Nat) (status : Option String) (db : DB) : Resp × DB :=
  if !(truthyStr status) || !(regStatuses.contains (status.getD "")) then
    ({ status := 400, success := false, message := "Status must be: pending, approved, or rejected" }, db)
  else
    match db.registrations.find? (fun r => r.id == rid) with
    | none => ({ status := 404, success := false, message := "Registration not found." }, db)
    | some r =>
      let r2 := { r with status := status.getD "" }
      ({ status := 200, success := true, message := "", data := .regDoc r2 },
       { db with registrations := db.registrations.map (fun x => if x.id == rid then r2 else x) })

/-- One protected admin endpoint invocation, with its parameters. -/
inductive AdminOp where
  | me
  | stats
  | listContacts (status : Option String) (page limit : Nat)
  | updateContact (cid : Nat) (status : Option String)
  | deleteContact (cid : Nat)
  | listRegistrations (game mode status : Option String) (page limit : Nat)
  | updateRegistration (rid : Nat) (status : Option String)
deriving Repr, DecidableEq

/-- Dispatch of the token-gated admin routes: every one of them is
declared as `router.VERB(path, protect, handler)`, so `protect` runs
first and a failure short-circuits with its 401 before the handler
touches the store. -/
def runAdminOp (admins : List AdminAcct) (secret : String) (now : Nat)
    (op : AdminOp) (auth : Option Token) (db : DB) : Resp × DB :=
  match protect admins secret now auth with
  | .error r => (r, db)
  | .ok a =>
    match op with
    | .me =>
      ({ status := 200, success := true, message := "",
         data := .meData a.id a.name a.email a.role a.lastLogin }, db)
    | .stats =>
      ({ status := 200, success := true, message := "", data := .statsData (statsOf db) }, db)
    | .listContacts s p l => (listContactsAction s p l db, db)
    | .updateContact cid s => updateContactAction cid s db
    | .deleteContact cid => deleteContactAction cid db
    | .listRegistrations g m s p l => (listRegsAction g m s p l db, db)
    | .updateRegistration rid s => updateRegAction rid s db

/-- The four ways authentication fails, stated independently of
`protect`: no bearer token, wrong signature, expired token, or a token id
that resolves to no administrator account. -/
def authFails (admins : List AdminAcct) (secret : String) (now : Nat)
    (auth : Option Token) : Bool :=
  match auth with
  | none => true
  | some t =>
    t.signedWith != secret || t.exp ≤ now ||
    (admins.find? (fun a => a.id == t.id)).isNone

/-- The JSON body of POST /api/v1/contact. -/
structure ContactBody where
  name : String
  email : String
  phone : Option String
  subject : String
  message : String
deriving Repr, DecidableEq

/-- Subject enum of the contact route. -/
def contactSubjects : List String :=
  ["tournament", "registration", "payment", "report", "partnership", "feedback", "other"]

/-- `body('name').trim().notEmpty().isLength(min 2, max 100)`. -/
def nameErrors (n : String) : List String :=
  let v := jsTrim n
  (if v == "" then ["Name is required"] else []) ++
  (if 2 ≤ v.length ∧ v.length ≤ 100 then [] else ["Name must be 2-100 characters"])

/-- `body('email').trim().notEmpty().isEmail().normalizeEmail()`. -/
def emailErrors (e : String) : List String :=
  let v := jsTrim e
  (if v == "" then ["Email is required"] else []) ++
  (if isEmailShape v then [] else ["Invalid email format"])

/-- `body('subject').trim().notEmpty().isIn([...])`. -/
def subjectErrors (s : String) : List String :=
  let v := jsTrim s
  (if v == "" then ["Subject is required"] else []) ++
  (if contactSubjects.contains v then [] else ["Invalid subject category"])

/-- `body('message').trim().notEmpty().isLength(min 10, max 2000)`. -/
def messageErrors (m : String) : List String :=
  let v := jsTrim m
  (if v == "" then ["Message is required"] else []) ++
  (if 10 ≤ v.length ∧ v.length ≤ 2000 then [] else ["Message must be 10-2000 characters"])

/-- All contact validation messages, in chain declaration order (the
`phone` chain has only an `optional` marker and a trim sanitizer, so it
never contributes an error). -/
def contactErrors (b : ContactBody) : List String :=
  nameErrors b.name ++ emailErrors b.email ++ subjectErrors b.subject ++ messageErrors b.message

/-- Sanitizers of the contact chains: trims everywhere, plus
`normalizeEmail` (modelled as lowercasing, its case-folding effect). -/
def sanitizeContact (b : ContactBody) : ContactBody :=
  { b with
    name := jsTrim b.name
    email := jsToLower (jsTrim b.email)
    phone :=
      match b.phone with
      | none => none
      | some p => if p == "" then some p else some (jsTrim p)
    subject := jsTrim b.subject
    message := jsTrim b.message }

/-- The POST /api/v1/contact handler: validate, then persist the message
with `phone: phone || null` and the schema default `status: 'new'`.  The
route-level checks subsume the Contact schema validators, so the save is
an append. -/
def contactHandler (raw : ContactBody) (store : List Contact) : Resp × List Contact :=
  let errs := contactErrors raw
  if errs.isEmpty then
    let b := sanitizeContact raw
    let c : Contact :=
      { id := store.length
        name := b.name
        email := b.email
        phone := orNull b.phone
        subject := b.subject
        message := b.message
        status := "new" }
    ({ status := 201, success := true,
       message := "Your message has been sent successfully! We will get back to you soon." },
     store ++ [c])
  else
    ({ status := 400, success := false,
       message := "Validation failed. Please check your input.",
       errors := errs },
     store)

/-- The entry fee echoed in a registration response, when present. -/
def respFee (r : Resp) : Option Nat :=
  match r.data with
  | .regCreated d => d.entryFee
  | _ => none

/-- The player count echoed in a registration response (JavaScript
`data.playerCount`), when present. -/
def respPlayerCount (r : Resp) : Option Nat :=
  match r.data with
  | .regCreated d => some d.playerCount
  | _ => none

/-- Concrete fixtures used by the witness theorems. -/
def exPlayer1 : Player :=
  { inGameName := "Ace", inGameId := "1001", phone := "9876543210", email := some "ace@mail.in" }

def exPlayer2 : Player :=
  { inGameName := "Bee", inGameId := "1002", phone := "9876543211", email := none }

def exPlayer3 : Player :=
  { inGameName := "Cat", inGameId := "1003", phone := "9876543212", email := none }

def exSolo : RegBody :=
  { game := "pubg", mode := "solo", teamName := none, players := [exPlayer1],
    transactionId := "UPI00011", entryFee := none }

def exSolo3 : RegBody :=
  { game := "pubg", mode := "solo", teamName := none,
    players := [exPlayer1, exPlayer2, exPlayer3], transactionId := "UPI00033", entryFee := none }

def exDuo : RegBody :=
  { game := "freefire", mode := "duo", teamName := some "Alpha",
    players := [exPlayer1, exPlayer2], transactionId := "UPI00022", entryFee := none }

def exDuoShort : RegBody :=
  { exDuo with players := [exPlayer1], transactionId := "UPI00011" }

def exBadReg : RegBody :=
  { game := "chess", mode := "solo", teamName := none, players := [exPlayer1],
    transactionId := "x", entryFee := none }

def exBadContact : ContactBody :=
  { name := "A", email := "not-an-email", phone := none, subject := "spam",
    message := "short" }

def exStoredReg : Registration :=
  { id := 0, game := "pubg", mode := "solo", teamName := none, players := [exPlayer1],
    transactionId := "UPI00011", entryFee := some 5, status := "pending" }

def exDuoDoc : Registration :=
  { id := 0, game := "freefire", mode := "duo", teamName := some "Alpha",
    players := [exPlayer1, exPlayer2], transactionId := "UPI00022",
    entryFee := some 10, status := "pending" }

def exAdmin : AdminAcct :=
  { id := 7, email := "admin@gullyesports.in", password := "bcrypt$2b$12$hash",
    name := "Site Admin", role := "admin", lastLogin := none }

/-- A model bcrypt comparison for witnesses: the stored hash of the
correct password is `exAdmin.password` and only the plaintext
`"letmein9"` matches it. -/
def exVerify (candidate hash : String) : Bool :=
  candidate == "letmein9" && hash == "bcrypt$2b$12$hash"

def exLoginUnknown : LoginBody :=
  { email := "ghost@mail.in", password := "whatever1" }

def exLoginWrongPw : LoginBody :=
  { email := "admin@gullyesports.in", password := "wrongpass" }

def exContact : Contact :=
  { id := 0, name := "Ravi", email := "ravi@mail.in", phone := none,
    subject := "tournament", message := "When is the next match held",
    status := "new" }

def exApprovedReg : Registration :=
  { exStoredReg with id := 1, transactionId := "UPI00044", status := "approved", entryFee := some 20 }

def exRejectedReg : Registration :=
  { exStoredReg with id := 2, transactionId := "UPI00055", status := "rejected", entryFee := some 10 }

def exDB : DB :=
  { contacts := [exContact],
    registrations := [exStoredReg, exApprovedReg, exRejectedReg] }

/-- Inversion for a successful save: the only `.ok` result appends the
document to the store. -/
theorem saveReg_ok_eq {r : Registration} {store store2 : List Registration}
    (h : saveReg r store = .ok store2) : store2 = store ++ [r] := by
  unfold saveReg at h
  split at h
  · simp at h
  · split at h
    · simp at h
    · split at h
      · simp at h
      · simpa using h.symm

/-- An empty overall error list means every chain produced no message. -/
theorem regErrors_parts {b : RegBody} (h : regErrors b = []) :
    gameErrors b.game = [] ∧ modeErrors b.mode = [] ∧ teamNameErrors b.teamName = [] ∧
    playersArrayErrors b.players = [] ∧ playerNameErrors b.players = [] ∧
    playerIdErrors b.players = [] ∧ playerPhoneErrors b.players = [] ∧
    transactionIdErrors b.transactionId = [] := by
  unfold regErrors at h
  simp only [List.append_eq_nil] at h
  tauto

/-- A clean mode chain forces the trimmed mode into the enum. -/
theorem mode_valid_of_no_errors {m : String} (h : modeErrors m = []) :
    jsTrim m = "solo" ∨ jsTrim m = "duo" ∨ jsTrim m = "squad" := by
  unfold modeErrors at h
  simp only [List.append_eq_nil] at h
  have h2 := h.2
  split at h2
  · next hc =>
    simpa [allowedModes, List.contains, List.elem_eq_mem, List.mem_cons] using hc
  · simp at h2

/-- A clean game chain forces the trimmed game into the enum. -/
theorem game_valid_of_no_errors {g : String} (h : gameErrors g = []) :
    jsTrim g = "pubg" ∨ jsTrim g = "freefire" ∨ jsTrim g = "cod" := by
  unfold gameErrors at h
  simp only [List.append_eq_nil] at h
  have h2 := h.2
  split at h2
  · next hc =>
    simpa [allowedGames, List.contains, List.elem_eq_mem, List.mem_cons] using hc
  · simp at h2

/-- A clean players chain bounds the roster length. -/
theorem players_valid_of_no_errors {ps : List Player} (h : playersArrayErrors ps = []) :
    1 ≤ ps.length ∧ ps.length ≤ 5 := by
  unfold playersArrayErrors at h
  split at h
  · assumption
  · simp at h

/-- C1: for every registration request that passes validation and is
persisted, the stored and the echoed entryFee equal the Fee & Roster
Policy value for the submitted mode (solo=5, duo=10, squad=20), and a
fee field present in the request body has no effect on the outcome at
all. -/
theorem entryFee_server_authoritative (raw : RegBody) (x : Option Nat)
    (sC sW : List Registration) :
    registerHandler { raw with entryFee := x } sC sW = registerHandler raw sC sW ∧
    FEE_TABLE "solo" = some 5 ∧ FEE_TABLE "duo" = some 10 ∧ FEE_TABLE "squad" = some 20 ∧
    ((registerHandler raw sC sW).1.status = 201 →
      ∃ d : Registration,
        (registerHandler raw sC sW).2 = sW ++ [d] ∧
        d.entryFee = FEE_TABLE (sanitizeReg raw).mode ∧
        respFee (registerHandler raw sC sW).1 = FEE_TABLE (sanitizeReg raw).mode) := by
  refine ⟨rfl, rfl, rfl, rfl, ?_⟩
  intro h
  cases he : (regErrors raw).isEmpty with
  | false =>
    simp only [registerHandler, he] at h
    simp at h
  | true =>
    rcases hfind : sC.find? (fun r => r.transactionId == (sanitizeReg raw).transactionId) with _ | r0
    case some =>
      simp only [registerHandler, he, hfind] at h
      simp at h
    · cases hcount : jsLt (sanitizeReg raw).players.length (PLAYER_COUNT (sanitizeReg raw).mode) with
      | true =>
        simp only [registerHandler, he, hfind, hcount] at h
        simp at h
      | false =>
        cases hteam : ((sanitizeReg raw).mode == "duo" || (sanitizeReg raw).mode == "squad") && !(truthyStr (sanitizeReg raw).teamName) with
        | true =>
          simp only [registerHandler, he, hfind, hcount, hteam] at h
          simp at h
        | false =>
          rcases hsave : saveReg (buildDoc (sanitizeReg raw) sW.length) sW with e | store2
          · cases e with
            | docInvalid m =>
              simp only [registerHandler, he, hfind, hcount, hteam, hsave] at h
              simp at h
            | hookThrow m =>
              simp only [registerHandler, he, hfind, hcount, hteam, hsave] at h
              simp at h
            | dupKey =>
              simp only [registerHandler, he, hfind, hcount, hteam, hsave] at h
              simp at h
          · refine ⟨buildDoc (sanitizeReg raw) sW.length, ?_, rfl, ?_⟩
            · simp only [registerHandler, he, hfind, hcount, hteam, hsave]
              exact saveReg_ok_eq hsave
            · simp only [registerHandler, he, hfind, hcount, hteam, hsave, respFee]
              simp

/-- Witness: the concrete solo request is persisted with the policy fee
for its mode, discharging the status-201 hypothesis by evaluation. -/
theorem entryFee_server_authoritative_witness :
    ∃ d : Registration,
      (registerHandler exSolo [] []).2 = [] ++ [d] ∧
      d.entryFee = FEE_TABLE (sanitizeReg exSolo).mode ∧
      respFee (registerHandler exSolo [] []).1 = FEE_TABLE (sanitizeReg exSolo).mode :=
  (entryFee_server_authoritative exSolo (some 999) [] []).2.2.2.2 (by decide)

/-- `t || null` preserves JavaScript truthiness. -/
theorem truthyStr_orNull (t : Option String) : truthyStr (orNull t) = truthyStr t := by
  unfold orNull
  cases ht : truthyStr t with
  | true => simp [ht]
  | false => simp [ht, truthyStr]

/-- The route-level roster and team-name checks imply the pre-save hook
does not throw on the document the route builds. -/
theorem preSaveHook_none_of_checks {b : RegBody} {n : Nat}
    (hcount : jsLt b.players.length (PLAYER_COUNT b.mode) = false)
    (hteam : ((b.mode == "duo" || b.mode == "squad") && !(truthyStr b.teamName)) = false) :
    preSaveHook (buildDoc b n) = none := by
  unfold preSaveHook buildDoc
  simp only [truthyStr_orNull]
  simp [hcount, hteam]

/-- C2: a registration submission reusing an already-persisted
transactionId fails with 409 and is not persisted, both when the
pre-persistence `findOne` sees the duplicate and when only the unique
index at write time does (the `error.code === 11000` catch is translated
to the same 409 outcome). -/
theorem duplicate_transaction_conflict (raw : RegBody) (sC sW : List Registration) :
    (regErrors raw = [] →
      (∃ r0 ∈ sC, r0.transactionId == (sanitizeReg raw).transactionId) →
      (registerHandler raw sC sW).1.status = 409 ∧ (registerHandler raw sC sW).2 = sW) ∧
    (regErrors raw = [] →
      sC.find? (fun r => r.transactionId == (sanitizeReg raw).transactionId) = none →
      jsLt (sanitizeReg raw).players.length (PLAYER_COUNT (sanitizeReg raw).mode) = false →
      (((sanitizeReg raw).mode == "duo" || (sanitizeReg raw).mode == "squad") && !(truthyStr (sanitizeReg raw).teamName)) = false →
      validRegDoc (buildDoc (sanitizeReg raw) sW.length) = true →
      sW.any (fun r => r.transactionId == (sanitizeReg raw).transactionId) = true →
      (registerHandler raw sC sW).1.status = 409 ∧ (registerHandler raw sC sW).2 = sW) := by
  constructor
  · intro he hex
    have he' : (regErrors raw).isEmpty = true := by rw [he]; rfl
    have hsome : (sC.find? (fun r => r.transactionId == (sanitizeReg raw).transactionId)).isSome = true := by
      rw [List.find?_isSome]
      rcases hex with ⟨r0, hr0, hid⟩
      exact ⟨r0, hr0, hid⟩
    rcases hfind : sC.find? (fun r => r.transactionId == (sanitizeReg raw).transactionId) with _ | r0
    · rw [hfind] at hsome; simp at hsome
    · constructor
      · simp only [registerHandler, he', hfind]
        simp
      · simp only [registerHandler, he', hfind]
        simp
  · intro he hfind hcount hteam hdoc hdup
    have he' : (regErrors raw).isEmpty = true := by rw [he]; rfl
    have hsave : saveReg (buildDoc (sanitizeReg raw) sW.length) sW = .error .dupKey := by
      unfold saveReg
      rw [hdoc]
      simp only [Bool.not_true, Bool.false_eq_true, if_false]
      rw [preSaveHook_none_of_checks hcount hteam]
      simp only [buildDoc]
      rw [hdup]
      simp
    constructor
    · simp only [registerHandler, he', hfind, hcount, hteam, hsave]
      simp
    · simp only [registerHandler, he', hfind, hcount, hteam, hsave]
      simp

/-- Witness: a concrete duplicate is rejected with 409 and the store is
unchanged, on both the findOne path and the unique-index path. -/
theorem duplicate_transaction_conflict_witness :
    ((registerHandler exSolo [exStoredReg] [exStoredReg]).1.status = 409 ∧
     (registerHandler exSolo [exStoredReg] [exStoredReg]).2 = [exStoredReg]) ∧
    ((registerHandler exSolo [] [exStoredReg]).1.status = 409 ∧
     (registerHandler exSolo [] [exStoredReg]).2 = [exStoredReg]) :=
  ⟨(duplicate_transaction_conflict exSolo [exStoredReg] [exStoredReg]).1 (by decide)
      ⟨exStoredReg, by decide, by decide⟩,
   (duplicate_transaction_conflict exSolo [] [exStoredReg]).2 (by decide) (by decide)
      (by decide) (by decide) (by decide) (by decide)⟩

/-- A clean transactionId chain: the trimmed id is non-empty with at
least five characters. -/
theorem tid_valid_of_no_errors {t : String} (h : transactionIdErrors t = []) :
    jsTrim t ≠ "" ∧ 5 ≤ (jsTrim t).length := by
  unfold transactionIdErrors at h
  simp only [List.append_eq_nil] at h
  obtain ⟨h1, h2⟩ := h
  constructor
  · intro hv
    rw [hv] at h1
    simp at h1
  · split at h2
    · assumption
    · simp at h2

/-- A clean teamName chain bounds a truthy trimmed team name to 50
characters. -/
theorem teamName_valid_of_no_errors {t : Option String} (h : teamNameErrors t = [])
    {s : String} (hts : t = some s) (hs : ¬ (s == "")) : (jsTrim s).length ≤ 50 := by
  subst hts
  have h2 : (if (s == "") = true then ([] : List String)
      else if (jsTrim s).length ≤ 50 then [] else ["Team name cannot exceed 50 characters"]) = [] := h
  rw [if_neg hs] at h2
  split at h2
  · assumption
  · simp at h2

/-- Route validation passing, plus the schema maxlength bounds on the
player fields (which the route does not check), make the built document
pass mongoose schema validation. -/
theorem validRegDoc_of_route {raw : RegBody} {n : Nat}
    (he : regErrors raw = [])
    (hp : (sanitizeReg raw).players.all validPlayerDoc = true) :
    validRegDoc (buildDoc (sanitizeReg raw) n) = true := by
  obtain ⟨hg, hm, ht, hpa, _, _, _, htid⟩ := regErrors_parts he
  have hlen := players_valid_of_no_errors hpa
  have htid2 := tid_valid_of_no_errors htid
  unfold validRegDoc buildDoc
  simp only [Bool.and_eq_true]
  refine ⟨⟨⟨⟨⟨⟨⟨?_, ?_⟩, ?_⟩, ?_⟩, ?_⟩, ?_⟩, ?_⟩, ?_⟩
  · rcases game_valid_of_no_errors hg with h | h | h <;>
      · simp only [sanitizeReg]
        rw [h]
        decide
  · rcases mode_valid_of_no_errors hm with h | h | h <;>
      · simp only [sanitizeReg]
        rw [h]
        decide
  · rcases hcase : raw.teamName with _ | s
    · simp [sanitizeReg, hcase, orNull, truthyStr]
    · by_cases hs : s == ""
      · have hs2 : s = "" := by simpa using hs
        simp [sanitizeReg, hcase, hs2, orNull, truthyStr]
      · have h50 := teamName_valid_of_no_errors ht hcase hs
        have hs2 : ¬ (s = "") := by simpa using hs
        by_cases hts : jsTrim s = ""
        · simp [sanitizeReg, hcase, hs2, hts, orNull, truthyStr]
        · simp [sanitizeReg, hcase, hs2, hts, orNull, truthyStr, h50]
  · simp only [sanitizeReg, List.length_map]
    simp [hlen.1, hlen.2]
  · exact hp
  · simp only [sanitizeReg]
    simpa using htid2.1
  · rcases mode_valid_of_no_errors hm with h | h | h <;>
      · simp only [sanitizeReg]
        rw [h]
        decide
  · decide

/-- C3: a solo registration with an empty roster is rejected with 400
and nothing persisted; any solo roster passing validation (length 1 up
to the structural bound 5) is accepted, the players list is persisted
verbatim rather than trimmed to the required count, and the response
echoes playerCount equal to the submitted length. -/
theorem solo_roster_handling (raw : RegBody) (sC sW : List Registration) :
    (raw.players = [] →
      (registerHandler raw sC sW).1.status = 400 ∧ (registerHandler raw sC sW).2 = sW) ∧
    ((sanitizeReg raw).mode = "solo" →
      regErrors raw = [] →
      sC.find? (fun r => r.transactionId == (sanitizeReg raw).transactionId) = none →
      sW.any (fun r => r.transactionId == (sanitizeReg raw).transactionId) = false →
      (sanitizeReg raw).players.all validPlayerDoc = true →
      (registerHandler raw sC sW).1.status = 201 ∧
      (registerHandler raw sC sW).2 = sW ++ [buildDoc (sanitizeReg raw) sW.length] ∧
      (buildDoc (sanitizeReg raw) sW.length).players = (sanitizeReg raw).players ∧
      (buildDoc (sanitizeReg raw) sW.length).players.length = raw.players.length ∧
      respPlayerCount (registerHandler raw sC sW).1 = some raw.players.length) := by
  constructor
  · intro hnil
    have hmem : "Players array is required (1-5 players)" ∈ regErrors raw := by
      unfold regErrors playersArrayErrors
      rw [hnil]
      simp
    have hne : (regErrors raw).isEmpty = false := by
      cases hre : regErrors raw with
      | nil => rw [hre] at hmem; simp at hmem
      | cons a l => rfl
    constructor
    · simp only [registerHandler, hne]
      simp
    · simp only [registerHandler, hne]
      simp
  · intro hsolo he hfind hdupw hp
    have he' : (regErrors raw).isEmpty = true := by rw [he]; rfl
    obtain ⟨_, _, _, hpa, _, _, _, _⟩ := regErrors_parts he
    have hlen1 : 1 ≤ (sanitizeReg raw).players.length := by
      have hlen := (players_valid_of_no_errors hpa).1
      simpa [sanitizeReg, List.length_map] using hlen
    have hcount : jsLt (sanitizeReg raw).players.length (PLAYER_COUNT (sanitizeReg raw).mode) = false := by
      rw [hsolo]
      have hpc : PLAYER_COUNT "solo" = some 1 := by decide
      rw [hpc]
      unfold jsLt
      simp only [decide_eq_false_iff_not]
      omega
    have hteam : (((sanitizeReg raw).mode == "duo" || (sanitizeReg raw).mode == "squad") && !(truthyStr (sanitizeReg raw).teamName)) = false := by
      rw [hsolo]
      simp
    have hdoc := validRegDoc_of_route (n := sW.length) he hp
    have hsave : saveReg (buildDoc (sanitizeReg raw) sW.length) sW = .ok (sW ++ [buildDoc (sanitizeReg raw) sW.length]) := by
      unfold saveReg
      rw [hdoc]
      simp only [Bool.not_true, Bool.false_eq_true, if_false]
      rw [preSaveHook_none_of_checks hcount hteam]
      simp only [buildDoc]
      rw [hdupw]
      simp
    refine ⟨?_, ?_, rfl, ?_, ?_⟩
    · simp only [registerHandler, he', hfind, hcount, hteam, hsave]
      simp
    · simp only [registerHandler, he', hfind, hcount, hteam, hsave]
      simp
    · simp [buildDoc, sanitizeReg, List.length_map]
    · simp only [registerHandler, he', hfind, hcount, hteam, hsave, respPlayerCount]
      simp [sanitizeReg, List.length_map]

/-- Witness: an empty solo roster gets 400; a 1-player solo roster and a
3-player solo roster are both accepted, the latter echoing playerCount 3. -/
theorem solo_roster_handling_witness :
    ((registerHandler { exSolo with players := ([] : List Player) } [] []).1.status = 400 ∧
     (registerHandler { exSolo with players := ([] : List Player) } [] []).2 = []) ∧
    ((registerHandler exSolo [] []).1.status = 201) ∧
    ((registerHandler exSolo3 [] []).1.status = 201 ∧
     respPlayerCount (registerHandler exSolo3 [] []).1 = some exSolo3.players.length) :=
  ⟨(solo_roster_handling { exSolo with players := ([] : List Player) } [] []).1 rfl,
   ((solo_roster_handling exSolo [] []).2 (by decide) (by decide) (by decide)
      (by decide) (by decide)).1,
   ((solo_roster_handling exSolo3 [] []).2 (by decide) (by decide) (by decide)
      (by decide) (by decide)).1,
   ((solo_roster_handling exSolo3 [] []).2 (by decide) (by decide) (by decide)
      (by decide) (by decide)).2.2.2.2⟩

/-- C4: the duplicate-transactionId check precedes the roster-count and
team-name checks: a validated request reusing a persisted transactionId
while also having a short roster or a missing duo/squad team name gets
the 409 uniqueness rejection, never the 400 roster/team rejection, and
nothing is persisted. -/
theorem duplicate_check_precedes_roster_check (raw : RegBody) (sC sW : List Registration)
    (he : regErrors raw = [])
    (hdup : ∃ r0 ∈ sC, r0.transactionId == (sanitizeReg raw).transactionId)
    (_hbad : jsLt (sanitizeReg raw).players.length (PLAYER_COUNT (sanitizeReg raw).mode) = true ∨
            (((sanitizeReg raw).mode == "duo" || (sanitizeReg raw).mode == "squad") &&
              !(truthyStr (sanitizeReg raw).teamName)) = true) :
    (registerHandler raw sC sW).1.status = 409 ∧
    (registerHandler raw sC sW).1.status ≠ 400 ∧
    (registerHandler raw sC sW).2 = sW := by
  have he2 : (regErrors raw).isEmpty = true := by rw [he]; rfl
  have hsome : (sC.find? (fun r => r.transactionId == (sanitizeReg raw).transactionId)).isSome = true := by
    rw [List.find?_isSome]
    rcases hdup with ⟨r0, hr0, hid⟩
    exact ⟨r0, hr0, hid⟩
  rcases hfind : sC.find? (fun r => r.transactionId == (sanitizeReg raw).transactionId) with _ | r0
  · rw [hfind] at hsome
    simp at hsome
  · refine ⟨?_, ?_, ?_⟩ <;>
      · simp only [registerHandler, he2, hfind]
        simp

/-- Witness: a duo request with a one-player roster that reuses the
persisted transactionId is answered 409, not 400, and the store is
unchanged. -/
theorem duplicate_check_precedes_roster_check_witness :
    (registerHandler exDuoShort [exStoredReg] [exStoredReg]).1.status = 409 ∧
    (registerHandler exDuoShort [exStoredReg] [exStoredReg]).1.status ≠ 400 ∧
    (registerHandler exDuoShort [exStoredReg] [exStoredReg]).2 = [exStoredReg] :=
  duplicate_check_precedes_roster_check exDuoShort [exStoredReg] [exStoredReg]
    (by decide) ⟨exStoredReg, by decide, by decide⟩ (Or.inl (by decide))

/-- C5: every failed login attempt — unknown email, or known email with
a wrong password — produces the identical 401 response with message
"Invalid email or password.", leaving the admin store untouched, so the
two failure causes are indistinguishable to the caller. -/
theorem login_failure_uniform_message (admins : List AdminAcct)
    (verify : String → String → Bool) (secret : String) (now : Nat) (raw : LoginBody)
    (he : loginErrors raw = []) :
    (admins.find? (fun a => a.email == jsTrim raw.email) = none →
      (loginHandler admins verify secret now raw).1 =
        { status := 401, success := false, message := invalidCredsMsg } ∧
      (loginHandler admins verify secret now raw).2 = admins) ∧
    (∀ a, admins.find? (fun x => x.email == jsTrim raw.email) = some a →
      verify raw.password a.password = false →
      (loginHandler admins verify secret now raw).1 =
        { status := 401, success := false, message := invalidCredsMsg } ∧
      (loginHandler admins verify secret now raw).2 = admins) := by
  have he2 : (loginErrors raw).isEmpty = true := by rw [he]; rfl
  constructor
  · intro hfind
    constructor <;>
      · simp only [loginHandler, he2, hfind]
        simp
  · intro a hfind hv
    constructor <;>
      · simp only [loginHandler, he2, hfind, hv]
        simp

/-- Witness: with one concrete account, an unknown email and a wrong
password produce byte-identical 401 responses. -/
theorem login_failure_uniform_message_witness :
    ((loginHandler [exAdmin] exVerify "jwtsecret" 1000 exLoginUnknown).1 =
       { status := 401, success := false, message := invalidCredsMsg } ∧
     (loginHandler [exAdmin] exVerify "jwtsecret" 1000 exLoginUnknown).2 = [exAdmin]) ∧
    ((loginHandler [exAdmin] exVerify "jwtsecret" 1000 exLoginWrongPw).1 =
       { status := 401, success := false, message := invalidCredsMsg } ∧
     (loginHandler [exAdmin] exVerify "jwtsecret" 1000 exLoginWrongPw).2 = [exAdmin]) :=
  ⟨(login_failure_uniform_message [exAdmin] exVerify "jwtsecret" 1000 exLoginUnknown
      (by decide)).1 (by decide),
   (login_failure_uniform_message [exAdmin] exVerify "jwtsecret" 1000 exLoginWrongPw
      (by decide)).2 exAdmin (by decide) (by decide)⟩

/-- C6: a session token issued at time T carries expiry exactly
T + 7 days; verification accepts it at T + 6 days and rejects it as
expired at T + 8 days, where the protect middleware answers 401. -/
theorem token_seven_day_expiry (id : Nat) (secret : String) (T : Nat)
    (admins : List AdminAcct) :
    (jwtSign id secret T).exp = T + 7 * 24 * 60 * 60 ∧
    jwtVerify (jwtSign id secret T) secret (T + 6 * 24 * 60 * 60) = .ok id ∧
    jwtVerify (jwtSign id secret T) secret (T + 8 * 24 * 60 * 60) = .error .expired ∧
    protect admins secret (T + 8 * 24 * 60 * 60) (some (jwtSign id secret T)) =
      .error { status := 401, success := false, message := "Token expired. Please login again." } := by
  have hok : jwtVerify (jwtSign id secret T) secret (T + 6 * 24 * 60 * 60) = .ok id := by
    simp only [jwtVerify, jwtSign, sevenDays]
    rw [bne_self_eq_false]
    simp only [Bool.false_eq_true, if_false]
    rw [if_neg (by omega)]
  have hexp : jwtVerify (jwtSign id secret T) secret (T + 8 * 24 * 60 * 60) = .error .expired := by
    simp only [jwtVerify, jwtSign, sevenDays]
    rw [bne_self_eq_false]
    simp only [Bool.false_eq_true, if_false]
    rw [if_pos (by omega)]
  refine ⟨rfl, hok, hexp, ?_⟩
  unfold protect
  simp only [hexp]

/-- A running-total foldl is the sum of the mapped list. -/
theorem foldl_add_eq_sum (g : Registration → Nat) (l : List Registration) (init : Nat) :
    l.foldl (fun s r => s + g r) init = init + (l.map g).sum := by
  induction l generalizing init with
  | nil => simp
  | cons r rs ih => simp [ih, Nat.add_assoc]

/-- Summing over a filtered list equals summing a pointwise-guarded
map. -/
theorem filter_map_sum (p : Registration → Bool) (f : Registration → Nat) (l : List Registration) :
    ((l.filter p).map f).sum = (l.map (fun r => if p r then f r else 0)).sum := by
  induction l with
  | nil => rfl
  | cons r rs ih =>
    by_cases hp : p r <;> simp [List.filter_cons, hp, ih]

/-- The stats revenue reduction equals a pointwise guarded sum. -/
theorem totalRevenue_eq_sum (l : List Registration) :
    totalRevenue l = (l.map (fun r => if r.status == "approved" then r.entryFee.getD 0 else 0)).sum := by
  unfold totalRevenue
  rw [foldl_add_eq_sum]
  rw [filter_map_sum]
  simp

/-- C7: stats revenue is the sum of entryFee over exactly the approved
registrations: a pending or rejected registration contributes zero to
revenue even when its entryFee is nonzero, and an approved one adds
exactly its fee. -/
theorem stats_revenue_approved_only (db : DB) :
    (statsOf db).revenue =
      (db.registrations.map (fun r => if r.status == "approved" then r.entryFee.getD 0 else 0)).sum ∧
    (∀ r : Registration, ¬ (r.status == "approved") →
      totalRevenue (db.registrations ++ [r]) = totalRevenue db.registrations) ∧
    (∀ r : Registration, (r.status == "approved") →
      totalRevenue (db.registrations ++ [r]) = totalRevenue db.registrations + r.entryFee.getD 0) := by
  refine ⟨totalRevenue_eq_sum db.registrations, ?_, ?_⟩
  · intro r hr
    have hr2 : ¬ (r.status = "approved") := by simpa using hr
    rw [totalRevenue_eq_sum, totalRevenue_eq_sum]
    simp [hr2]
  · intro r hr
    have hr2 : r.status = "approved" := by simpa using hr
    rw [totalRevenue_eq_sum, totalRevenue_eq_sum]
    simp [hr2]

/-- Witness: on a concrete store with one approved (fee 20), one pending
and one rejected (fee 10) registration, appending another rejected
registration leaves revenue unchanged. -/
theorem stats_revenue_approved_only_witness :
    (statsOf exDB).revenue =
      (exDB.registrations.map (fun r => if r.status == "approved" then r.entryFee.getD 0 else 0)).sum ∧
    totalRevenue (exDB.registrations ++ [exRejectedReg]) = totalRevenue exDB.registrations :=
  ⟨(stats_revenue_approved_only exDB).1,
   (stats_revenue_approved_only exDB).2.1 exRejectedReg (by decide)⟩

/-- If one registration field chain fails, the handler answers 400 and
echoes every message of that chain. -/
theorem reg_field_reported (raw : RegBody) (sC sW : List Registration) (comp : List String)
    (hsub : ∀ m ∈ comp, m ∈ regErrors raw) (hne : comp ≠ []) :
    (registerHandler raw sC sW).1.status = 400 ∧
    ∀ m ∈ comp, m ∈ (registerHandler raw sC sW).1.errors := by
  have hrne : regErrors raw ≠ [] := by
    rcases List.exists_mem_of_ne_nil comp hne with ⟨a, ha⟩
    intro h0
    have := hsub a ha
    rw [h0] at this
    simp at this
  have hne2 : (regErrors raw).isEmpty = false := by
    cases hre : regErrors raw with
    | nil => exact absurd hre hrne
    | cons a l => rfl
  constructor
  · simp only [registerHandler, hne2]
    simp
  · have herrs : (registerHandler raw sC sW).1.errors = regErrors raw := by
      simp only [registerHandler, hne2]
      simp
    rw [herrs]
    exact hsub

/-- If one contact field chain fails, the handler answers 400 and echoes
every message of that chain. -/
theorem contact_field_reported (cb : ContactBody) (cs : List Contact) (comp : List String)
    (hsub : ∀ m ∈ comp, m ∈ contactErrors cb) (hne : comp ≠ []) :
    (contactHandler cb cs).1.status = 400 ∧
    ∀ m ∈ comp, m ∈ (contactHandler cb cs).1.errors := by
  have hrne : contactErrors cb ≠ [] := by
    rcases List.exists_mem_of_ne_nil comp hne with ⟨a, ha⟩
    intro h0
    have := hsub a ha
    rw [h0] at this
    simp at this
  have hne2 : (contactErrors cb).isEmpty = false := by
    cases hre : contactErrors cb with
    | nil => exact absurd hre hrne
    | cons a l => rfl
  constructor
  · simp only [contactHandler, hne2]
    simp
  · have herrs : (contactHandler cb cs).1.errors = contactErrors cb := by
      simp only [contactHandler, hne2]
      simp
    rw [herrs]
    exact hsub

/-- C8: on a contact or registration submission with invalid fields, the
400 response lists a message for every failing field chain at once —
validation is not short-circuited at the first failure. -/
theorem validation_reports_all_fields (raw : RegBody) (sC sW : List Registration)
    (cb : ContactBody) (cs : List Contact) :
    ((gameErrors raw.game ≠ [] → (registerHandler raw sC sW).1.status = 400 ∧
        ∀ m ∈ gameErrors raw.game, m ∈ (registerHandler raw sC sW).1.errors) ∧
     (modeErrors raw.mode ≠ [] → (registerHandler raw sC sW).1.status = 400 ∧
        ∀ m ∈ modeErrors raw.mode, m ∈ (registerHandler raw sC sW).1.errors) ∧
     (teamNameErrors raw.teamName ≠ [] → (registerHandler raw sC sW).1.status = 400 ∧
        ∀ m ∈ teamNameErrors raw.teamName, m ∈ (registerHandler raw sC sW).1.errors) ∧
     (playersArrayErrors raw.players ≠ [] → (registerHandler raw sC sW).1.status = 400 ∧
        ∀ m ∈ playersArrayErrors raw.players, m ∈ (registerHandler raw sC sW).1.errors) ∧
     (playerNameErrors raw.players ≠ [] → (registerHandler raw sC sW).1.status = 400 ∧
        ∀ m ∈ playerNameErrors raw.players, m ∈ (registerHandler raw sC sW).1.errors) ∧
     (playerIdErrors raw.players ≠ [] → (registerHandler raw sC sW).1.status = 400 ∧
        ∀ m ∈ playerIdErrors raw.players, m ∈ (registerHandler raw sC sW).1.errors) ∧
     (playerPhoneErrors raw.players ≠ [] → (registerHandler raw sC sW).1.status = 400 ∧
        ∀ m ∈ playerPhoneErrors raw.players, m ∈ (registerHandler raw sC sW).1.errors) ∧
     (transactionIdErrors raw.transactionId ≠ [] → (registerHandler raw sC sW).1.status = 400 ∧
        ∀ m ∈ transactionIdErrors raw.transactionId, m ∈ (registerHandler raw sC sW).1.errors)) ∧
    ((nameErrors cb.name ≠ [] → (contactHandler cb cs).1.status = 400 ∧
        ∀ m ∈ nameErrors cb.name, m ∈ (contactHandler cb cs).1.errors) ∧
     (emailErrors cb.email ≠ [] → (contactHandler cb cs).1.status = 400 ∧
        ∀ m ∈ emailErrors cb.email, m ∈ (contactHandler cb cs).1.errors) ∧
     (subjectErrors cb.subject ≠ [] → (contactHandler cb cs).1.status = 400 ∧
        ∀ m ∈ subjectErrors cb.subject, m ∈ (contactHandler cb cs).1.errors) ∧
     (messageErrors cb.message ≠ [] → (contactHandler cb cs).1.status = 400 ∧
        ∀ m ∈ messageErrors cb.message, m ∈ (contactHandler cb cs).1.errors)) := by
  constructor
  · refine ⟨?_, ?_, ?_, ?_, ?_, ?_, ?_, ?_⟩ <;>
      · intro hne
        apply reg_field_reported raw sC sW _ ?_ hne
        intro m hm
        unfold regErrors
        simp only [List.mem_append]
        tauto
  · refine ⟨?_, ?_, ?_, ?_⟩ <;>
      · intro hne
        apply contact_field_reported cb cs _ ?_ hne
        intro m hm
        unfold contactErrors
        simp only [List.mem_append]
        tauto

/-- Witness: a registration with a bad game and a short transactionId has
both messages in one 400 response; a contact with a bad email and a
short message likewise. -/
theorem validation_reports_all_fields_witness :
    ((registerHandler exBadReg [] []).1.status = 400 ∧
     "Invalid game selection" ∈ (registerHandler exBadReg [] []).1.errors) ∧
    ("Transaction ID must be at least 5 characters" ∈ (registerHandler exBadReg [] []).1.errors) ∧
    ((contactHandler exBadContact []).1.status = 400 ∧
     "Invalid email format" ∈ (contactHandler exBadContact []).1.errors) ∧
    ("Message must be 10-2000 characters" ∈ (contactHandler exBadContact []).1.errors) :=
  have hreg := (validation_reports_all_fields exBadReg [] [] exBadContact []).1
  have hcon := (validation_reports_all_fields exBadReg [] [] exBadContact []).2
  ⟨⟨(hreg.1 (by decide)).1,
    (hreg.1 (by decide)).2 "Invalid game selection" (by decide)⟩,
   (hreg.2.2.2.2.2.2.2 (by decide)).2 "Transaction ID must be at least 5 characters" (by decide),
   ⟨(hcon.2.1 (by decide)).1,
    (hcon.2.1 (by decide)).2 "Invalid email format" (by decide)⟩,
   (hcon.2.2.2 (by decide)).2 "Message must be 10-2000 characters" (by decide)⟩

/-- Each of the four authentication-failure conditions makes `protect`
short-circuit with a 401 response. -/
theorem protect_error_of_authFails (admins : List AdminAcct) (secret : String) (now : Nat)
    (auth : Option Token) (h : authFails admins secret now auth = true) :
    ∃ r : Resp, protect admins secret now auth = .error r ∧ r.status = 401 := by
  unfold authFails at h
  cases auth with
  | none => exact ⟨_, rfl, rfl⟩
  | some t =>
    simp only [Bool.or_eq_true] at h
    by_cases hs : (t.signedWith != secret) = true
    · have hv : jwtVerify t secret now = .error .invalid := by
        unfold jwtVerify
        rw [if_pos hs]
      refine ⟨{ status := 401, success := false, message := "Invalid token. Please login again." }, ?_, rfl⟩
      simp only [protect, hv]
    · by_cases hexp : t.exp ≤ now
      · have hv : jwtVerify t secret now = .error .expired := by
          unfold jwtVerify
          rw [if_neg hs, if_pos hexp]
        refine ⟨{ status := 401, success := false, message := "Token expired. Please login again." }, ?_, rfl⟩
        simp only [protect, hv]
      · have hv : jwtVerify t secret now = .ok t.id := by
          unfold jwtVerify
          rw [if_neg hs, if_neg hexp]
        have hfind : admins.find? (fun a => a.id == t.id) = none := by
          rcases h with (h | h) | h
          · exact absurd h hs
          · exact absurd (of_decide_eq_true h) hexp
          · exact Option.isNone_iff_eq_none.mp h
        refine ⟨{ status := 401, success := false, message := "Admin account not found." }, ?_, rfl⟩
        simp only [protect, hv, hfind]

/-- C9: every admin operation (me, stats, list/update/delete contacts,
list/update registrations) under a missing, forged, expired, or
unresolvable token answers 401 and leaves the store unchanged — the
guard runs before the handler touches any data. -/
theorem admin_ops_require_auth (admins : List AdminAcct) (secret : String) (now : Nat)
    (op : AdminOp) (auth : Option Token) (db : DB)
    (hfail : authFails admins secret now auth = true) :
    (runAdminOp admins secret now op auth db).1.status = 401 ∧
    (runAdminOp admins secret now op auth db).2 = db := by
  obtain ⟨r, hr, hr401⟩ := protect_error_of_authFails admins secret now auth hfail
  constructor
  · simp only [runAdminOp, hr]
    exact hr401
  · simp only [runAdminOp, hr]

/-- Witness: a contact-status update attempted with no token at all is
rejected with 401 and the store is untouched. -/
theorem admin_ops_require_auth_witness :
    (runAdminOp [exAdmin] "jwtsecret" 1000 (.updateContact 0 (some "read")) none exDB).1.status = 401 ∧
    (runAdminOp [exAdmin] "jwtsecret" 1000 (.updateContact 0 (some "read")) none exDB).2 = exDB :=
  admin_ops_require_auth [exAdmin] "jwtsecret" 1000 (.updateContact 0 (some "read")) none exDB
    (by decide)

/-- A successful save implies schema validation passed and the pre-save
hook did not throw. -/
theorem saveReg_ok_inv {r : Registration} {store store2 : List Registration}
    (h : saveReg r store = .ok store2) :
    validRegDoc r = true ∧ preSaveHook r = none := by
  by_cases hvd : validRegDoc r = true
  · rcases hph : preSaveHook r with _ | m
    · exact ⟨hvd, rfl⟩
    · unfold saveReg at h
      rw [hvd] at h
      simp only [Bool.not_true, Bool.false_eq_true, if_false] at h
      rw [hph] at h
      simp at h
  · have hvd2 : validRegDoc r = false := by
      cases hb : validRegDoc r
      · rfl
      · exact absurd hb hvd
    unfold saveReg at h
    rw [hvd2] at h
    simp at h

/-- A silent hook means both of its throw conditions were false. -/
theorem preSaveHook_none_inv {r : Registration} (h : preSaveHook r = none) :
    jsLt r.players.length (PLAYER_COUNT r.mode) = false ∧
    ((r.mode == "duo" || r.mode == "squad") && !(truthyStr r.teamName)) = false := by
  unfold preSaveHook at h
  split at h
  · simp at h
  · next h1 =>
    split at h
    · simp at h
    · next h2 =>
      constructor
      · cases hb : jsLt r.players.length (PLAYER_COUNT r.mode)
        · rfl
        · exact absurd hb h1
      · cases hb : ((r.mode == "duo" || r.mode == "squad") && !(truthyStr r.teamName))
        · rfl
        · exact absurd hb h2

/-- A truthy optional string is a non-empty string. -/
theorem truthy_exists {t : Option String} (h : truthyStr t = true) :
    ∃ s, t = some s ∧ s ≠ "" := by
  cases t with
  | none => simp [truthyStr] at h
  | some s =>
    refine ⟨s, rfl, ?_⟩
    simpa [truthyStr] using h

/-- C10: every registration successfully persisted through save — by any
write path, independently of the route-level checks — has a roster of at
least the required count for its mode (solo=1, duo=2, squad=4) and, for
duo and squad, a non-empty teamName; whenever the pre-save hook throws,
no save can succeed. -/
theorem presave_hook_enforces_roster_invariant (r : Registration)
    (store store2 : List Registration) (h : saveReg r store = .ok store2) :
    (r.mode = "solo" → 1 ≤ r.players.length) ∧
    (r.mode = "duo" → 2 ≤ r.players.length) ∧
    (r.mode = "squad" → 4 ≤ r.players.length) ∧
    ((r.mode = "duo" ∨ r.mode = "squad") → ∃ s, r.teamName = some s ∧ s ≠ "") ∧
    (∀ r2 : Registration, preSaveHook r2 ≠ none →
      ∀ st st2 : List Registration, saveReg r2 st ≠ .ok st2) := by
  obtain ⟨hvd, hph⟩ := saveReg_ok_inv h
  obtain ⟨hcount, hteam⟩ := preSaveHook_none_inv hph
  refine ⟨?_, ?_, ?_, ?_, ?_⟩
  · intro hm
    rw [hm] at hcount
    have hpc : PLAYER_COUNT "solo" = some 1 := by decide
    rw [hpc] at hcount
    unfold jsLt at hcount
    simp only [decide_eq_false_iff_not] at hcount
    omega
  · intro hm
    rw [hm] at hcount
    have hpc : PLAYER_COUNT "duo" = some 2 := by decide
    rw [hpc] at hcount
    unfold jsLt at hcount
    simp only [decide_eq_false_iff_not] at hcount
    omega
  · intro hm
    rw [hm] at hcount
    have hpc : PLAYER_COUNT "squad" = some 4 := by decide
    rw [hpc] at hcount
    unfold jsLt at hcount
    simp only [decide_eq_false_iff_not] at hcount
    omega
  · intro hm
    have hmode : (r.mode == "duo" || r.mode == "squad") = true := by
      rcases hm with hm | hm <;> rw [hm] <;> decide
    rw [hmode] at hteam
    simp only [Bool.true_and, Bool.not_eq_false'] at hteam
    exact truthy_exists hteam
  · intro r2 hph2 st st2 hok
    obtain ⟨_, hnone⟩ := saveReg_ok_inv hok
    exact hph2 hnone

/-- Witness: a concretely saved duo registration satisfies the roster
and team-name invariant. -/
theorem presave_hook_enforces_roster_invariant_witness :
    (exDuoDoc.mode = "duo" → 2 ≤ exDuoDoc.players.length) ∧
    ((exDuoDoc.mode = "duo" ∨ exDuoDoc.mode = "squad") →
      ∃ s, exDuoDoc.teamName = some s ∧ s ≠ "") :=
  have h := presave_hook_enforces_roster_invariant exDuoDoc [] [exDuoDoc] (by rfl)
  ⟨h.2.1, h.2.2.2.1⟩
